import Mathlib

/-!
# Search Session Tracker — verification of the session state machine

Shallow embedding of the `SessionService` class from
`src/x-pack/.../sqs_oldest_message.ts` (the file holds the session-service
source after its header).  The underlying state container
(`createSessionStateContainer` from `search_session_state.ts`) is not part of
the reviewed sources; its transitions are modelled from the specification,
section 4.1, and are marked as such below.

Pending-search descriptors (`TrackSearchDescriptor`, an object with an
`abort` capability) are identified by natural numbers; invoking an abort
capability is recorded in an explicit action log.  Asynchronous suspension
points of `save()` are modelled by explicit interleaving functions
(`Service → Service`) applied at each `await` boundary, as the
single-threaded event-loop model of the spec (section 5) prescribes.
-/

namespace SearchSession

/-- JavaScript truthiness of an optional string: `undefined` and the empty
string are falsy, every other string is truthy.  Used wherever the source
tests a session id or app id with `if (!x)` / `if (x)`. -/
def optTruthy : Option String → Bool
  | none => false
  | some s => !(s == "")

/-- Modelled from the spec: the `SessionState` data model of section 3 of the
missing state-container module `search_session_state.ts` — an optional opaque
session id, the stored/restore flags, and the set of in-flight search
descriptors (descriptors are identified by naturals). -/
structure SessionState where
  sessionId : Option String
  isStored : Bool
  isRestore : Bool
  pendingSearches : List Nat
deriving Repr, DecidableEq

/-- Modelled from the spec: the empty state a tracker is created with. -/
def emptySessionState : SessionState :=
  { sessionId := none, isStored := false, isRestore := false, pendingSearches := [] }

/-- Modelled from the spec: the `start` transition of the missing state
container — overwrites any previous state with a fresh id (id generation
lives in the environment, so the fresh id is a parameter), clears
`isStored`/`isRestore`, empties `pendingSearches`. -/
def startT (newId : String) (_s : SessionState) : SessionState :=
  { emptySessionState with sessionId := some newId }

/-- Modelled from the spec: the `restore` transition of the missing state
container — same as `start` but sets the provided id and `isRestore`. -/
def restoreT (id : String) (_s : SessionState) : SessionState :=
  { emptySessionState with sessionId := some id, isRestore := true }

/-- Modelled from the spec: the `trackSearch` transition of the missing state
container — adds the descriptor to the `pendingSearches` set; tolerated as a
no-op when no session is active (spec sections 4.1 and 9). -/
def trackSearchT (d : Nat) (s : SessionState) : SessionState :=
  if s.sessionId.isSome then
    if d ∈ s.pendingSearches then s
    else { s with pendingSearches := s.pendingSearches ++ [d] }
  else s

/-- Modelled from the spec: the `unTrackSearch` transition of the missing
state container — removes the descriptor from `pendingSearches`; removing an
absent descriptor is a no-op. -/
def unTrackSearchT (d : Nat) (s : SessionState) : SessionState :=
  { s with pendingSearches := s.pendingSearches.filter (fun x => x ≠ d) }

/-- Modelled from the spec: the `store` transition of the missing state
container — sets `isStored` for the current session, a no-op with no active
session. -/
def storeT (s : SessionState) : SessionState :=
  if s.sessionId.isSome then { s with isStored := true } else s

/-- Modelled from the spec: the `cancel` transition of the missing state
container — full reset, equivalent to clearing state. -/
def cancelT (_s : SessionState) : SessionState := emptySessionState

/-- Modelled from the spec: the `clear` transition of the missing state
container — identical reset to `cancel` (abort side effects live in the
service layer). -/
def clearT (_s : SessionState) : SessionState := emptySessionState

/-- A `SearchSessionInfoProvider`: its asynchronous `getName` and
`getUrlGeneratorData` results, modelled as a pure record (the state blobs
are opaque values, modelled as naturals). -/
structure InfoProvider where
  name : String
  urlGeneratorId : String
  initialState : Nat
  restoreState : Nat
deriving Repr, DecidableEq

/-- The session service instance state: the container state plus the fields
`searchSessionInfoProvider` and `curApp` of the `SessionService` class. -/
structure Service where
  state : SessionState
  infoProvider : Option InfoProvider
  curApp : Option String
deriving Repr, DecidableEq

/-- The argument record the source passes to `sessionsClient.create`:
`{ name, appId, restoreState, initialState, urlGeneratorId, sessionId }`.
`appId` is `this.curApp` read at the moment of the create call. -/
structure CreateArgs where
  name : String
  appId : Option String
  restoreState : Nat
  initialState : Nat
  urlGeneratorId : String
  sessionId : Option String
deriving Repr, DecidableEq

/-- Calls `save()` makes on the info-provider collaborator. -/
inductive ProviderCall where
  | getName
  | getUrlGeneratorData
deriving Repr, DecidableEq

namespace SessionService

/-- `setSearchSessionInfoProvider`, from the source: replaces the provider. -/
def setSearchSessionInfoProvider (svc : Service) (p : Option InfoProvider) : Service :=
  { svc with infoProvider := p }

/-- `getSessionId()`, from the source: reads the container session id. -/
def getSessionId (svc : Service) : Option String :=
  svc.state.sessionId

/-- `isStored()`, from the source. -/
def isStored (svc : Service) : Bool :=
  svc.state.isStored

/-- `isRestore()`, from the source. -/
def isRestore (svc : Service) : Bool :=
  svc.state.isRestore

/-- `start()`, from the source: delegates to the container transition and
returns the fresh id (fresh-id generation is a parameter). -/
def start (svc : Service) (newId : String) : Service × Option String :=
  let svc1 := { svc with state := startT newId svc.state }
  (svc1, getSessionId svc1)

/-- `restore(sessionId)`, from the source: delegates to the container. -/
def restore (svc : Service) (sessionId : String) : Service :=
  { svc with state := restoreT sessionId svc.state }

/-- `clear()`, from the source: container `clear` transition, then
`setSearchSessionInfoProvider(undefined)`. -/
def clear (svc : Service) : Service :=
  setSearchSessionInfoProvider { svc with state := clearT svc.state } none

/-- `trackSearch(searchDescriptor)`, from the source: applies the container
`trackSearch` transition and returns the untrack closure
`() => this.state.transitions.unTrackSearch(searchDescriptor)`. -/
def trackSearch (svc : Service) (d : Nat) : Service × (Service → Service) :=
  ({ svc with state := trackSearchT d svc.state },
   fun s => { s with state := unTrackSearchT d s.state })

/-- `cancel()`, from the source, synchronous phase plus the recorded delete
call: reads `isStored`, invokes `abort()` on every pending search (the list
of aborted descriptors is returned), applies the container `cancel`
transition, and — when the session was stored — calls
`sessionsClient.delete(this.state.get().sessionId!)`, the id being read from
the state AFTER the cancel transition.  Result: the new service state, the
descriptors whose abort capability was invoked (in call order), and the list
of arguments passed to the delete collaborator call. -/
def cancel (svc : Service) : Service × List Nat × List (Option String) :=
  let isStoredSession := svc.state.isStored
  let aborted := svc.state.pendingSearches
  let svc1 := { svc with state := cancelT svc.state }
  (svc1, aborted, if isStoredSession then [svc1.state.sessionId] else [])

/-- `save()`, from the source.  The two `await` boundaries (the
`Promise.all` on the provider, then `sessionsClient.create`) may interleave
with other transitions; `i1` and `i2` are the transitions that run during
each suspension.  Returns the `Except` outcome (the thrown message or the
final service state), the provider calls made and the persistence create
calls made.  The preconditions are the three synchronous `throw`s; the
create payload reads `this.curApp` at call time (after `i1`); the
stale-write guard `this.getSessionId() === sessionId` runs after `i2`. -/
def save (svc : Service) (i1 i2 : Service → Service) :
    Except String Service × List ProviderCall × List CreateArgs :=
  let sessionId := svc.state.sessionId
  if optTruthy sessionId then
    if optTruthy svc.curApp then
      match svc.infoProvider with
      | none => (.error "No info provider for current session", [], [])
      | some p =>
        let svc1 := i1 svc
        let args : CreateArgs :=
          { name := p.name
            appId := svc1.curApp
            restoreState := p.restoreState
            initialState := p.initialState
            urlGeneratorId := p.urlGeneratorId
            sessionId := sessionId }
        let svc2 := i2 svc1
        let svc3 :=
          if svc2.state.sessionId = sessionId
          then { svc2 with state := storeT svc2.state }
          else svc2
        (.ok svc3, [ProviderCall.getName, ProviderCall.getUrlGeneratorData], [args])
    else (.error "No current app id", [], [])
  else (.error "No current session", [], [])

/-- Actions the application-navigation watcher performs besides state
updates: an immediate `console.warn` (production branch) or a
`setTimeout`-deferred `fatalErrors.add` (development branch). -/
inductive WatcherAction where
  | consoleWarn (msg : String)
  | deferredFatalError (msg : String)
deriving Repr, DecidableEq

/-- The body of the `currentAppId$` subscription in the constructor, from the
source: when a session id is present it builds the violation message from
the PREVIOUS `curApp`; in a dev build it only schedules a deferred
`fatalErrors.add` (no clear), otherwise it warns on the console and calls
`this.clear()`; in every case `this.curApp` is then set to the new app
name. -/
def handleAppChange (dev : Bool) (svc : Service) (appName : Option String) :
    Service × List WatcherAction :=
  if optTruthy svc.state.sessionId then
    let message :=
      "Application " ++ svc.curApp.getD "undefined" ++ " had an open session while navigating"
    if dev then
      ({ svc with curApp := appName }, [WatcherAction.deferredFatalError message])
    else
      let svc1 := clear svc
      ({ svc1 with curApp := appName }, [WatcherAction.consoleWarn message])
  else
    ({ svc with curApp := appName }, [])

end SessionService

/-- A named container transition, for reasoning about transition sequences
and the observable contract of section 4.1. -/
inductive Transition where
  | start (id : String)
  | restore (id : String)
  | trackSearch (d : Nat)
  | unTrackSearch (d : Nat)
  | store
  | cancel
  | clear
deriving Repr, DecidableEq

/-- Applying one container transition. -/
def applyT : Transition → SessionState → SessionState
  | .start id, s => startT id s
  | .restore id, s => restoreT id s
  | .trackSearch d, s => trackSearchT d s
  | .unTrackSearch d, s => unTrackSearchT d s
  | .store, s => storeT s
  | .cancel, s => cancelT s
  | .clear, s => clearT s

/-- The sequence of states published by the container: one per transition,
in transition order (section 4.1, observable contract). -/
def statesAfter (init : SessionState) : List Transition → List SessionState
  | [] => []
  | t :: ts =>
    let s1 := applyT t init
    s1 :: statesAfter s1 ts

/-- `distinctUntilChanged` on a stream whose first element is `prev`:
drops every element equal to the one last emitted. -/
def dedupLoop (prev : Option String) : List (Option String) → List (Option String)
  | [] => []
  | a :: rest => if a = prev then dedupLoop prev rest else a :: dedupLoop a rest

/-- `getSession$()`, from the source:
`state$.pipe(startWith(current), map(s => s.sessionId), distinctUntilChanged())` —
the full list of ids the observable emits when, starting from `init`, the
transitions `ts` run. -/
def sessionEmissions (init : SessionState) (ts : List Transition) : List (Option String) :=
  let first := init.sessionId
  first :: dedupLoop first ((statesAfter init ts).map SessionState.sessionId)

end SearchSession

namespace SearchSession

/-! ## Concrete instances used by witnesses and counterexamples -/

/-- A sample info provider: name N, opaque state blobs 1 and 2. -/
def provP : InfoProvider :=
  { name := "N", urlGeneratorId := "G", initialState := 1, restoreState := 2 }

/-- An active, stored session S1 on app app1, no pending searches. -/
def svcS1stored : Service :=
  { state := { sessionId := some "S1", isStored := true, isRestore := false,
               pendingSearches := [] },
    infoProvider := none, curApp := some "app1" }

/-- An active session S1 that was never stored. -/
def svcS1unstored : Service :=
  { state := { sessionId := some "S1", isStored := false, isRestore := false,
               pendingSearches := [] },
    infoProvider := none, curApp := some "app1" }

/-- An active session S1 with the info provider `provP` registered. -/
def svcS1withProvider : Service :=
  { state := { sessionId := some "S1", isStored := false, isRestore := false,
               pendingSearches := [] },
    infoProvider := some provP, curApp := some "app1" }

/-- An active session S1 with pending searches 7 and 8. -/
def svcS1pending : Service :=
  { state := { sessionId := some "S1", isStored := false, isRestore := false,
               pendingSearches := [7, 8] },
    infoProvider := none, curApp := some "app1" }

/-! ## Helper lemmas -/

/-- Removing a descriptor twice is the same as removing it once. -/
theorem filter_ne_idem (d : Nat) (l : List Nat) :
    (l.filter (fun x => x ≠ d)).filter (fun x => x ≠ d) = l.filter (fun x => x ≠ d) := by
  induction l with
  | nil => rfl
  | cons a l ih =>
    by_cases had : a = d
    · simp [had, ih]
    · simp [had, ih]

/-- Removing an absent descriptor changes nothing. -/
theorem filter_ne_of_not_mem (d : Nat) (l : List Nat) (h : d ∉ l) :
    l.filter (fun x => x ≠ d) = l := by
  rw [List.filter_eq_self]
  intro a ha
  have hne : a ≠ d := fun he => h (he ▸ ha)
  simp [hne]

end SearchSession

namespace SearchSession

/-! ## Claim theorems -/

/-- C1: with an active stored session S1, `cancel()` does invoke the
persistence delete, but the argument it passes is the session id read from
the state AFTER the cancel transition reset it — `none`, not S1 (the
non-null assertion the source places on that id notwithstanding); with a session
that was never stored no delete call happens at all. -/
theorem cancel_delete_receives_cleared_id :
    (SessionService.cancel svcS1stored).2.2 = [none] ∧
    (SessionService.cancel svcS1stored).2.2 ≠ [some "S1"] ∧
    (SessionService.cancel svcS1unstored).2.2 = [] := by
  refine ⟨rfl, ?_, rfl⟩
  decide

/-- C4 counterexample: a service with an active session and a registered
info provider still holds the provider reference after `cancel()` — the
claim that `cancel()` releases the provider fails on the code. -/
theorem cancel_keeps_provider_cex :
    (SessionService.cancel svcS1withProvider).1.infoProvider = some provP ∧
    some provP ≠ (none : Option InfoProvider) :=
  ⟨rfl, by simp⟩

/-- C4 (amended): after `clear()` the registered session-info provider
reference is released, but `cancel()` leaves the provider reference exactly
as it was — only `clear()` releases it. -/
theorem clear_releases_provider_cancel_preserves (svc : Service) :
    (SessionService.clear svc).infoProvider = none ∧
    (SessionService.cancel svc).1.infoProvider = svc.infoProvider :=
  ⟨rfl, rfl⟩

/-- C8: with an active session, `trackSearch d` registers `d` as pending and
returns a closure that untracks exactly `d`: after the closure runs `d` is
gone, running it twice equals running it once, running it on a state not
containing `d` is a no-op, and membership of every other descriptor is unchanged. -/
theorem trackSearch_untrack_symmetry (svc : Service) (d : Nat)
    (h : svc.state.sessionId.isSome = true) :
    d ∈ (SessionService.trackSearch svc d).1.state.pendingSearches ∧
    (∀ s : Service, d ∉ ((SessionService.trackSearch svc d).2 s).state.pendingSearches) ∧
    (∀ s : Service, (SessionService.trackSearch svc d).2 ((SessionService.trackSearch svc d).2 s)
        = (SessionService.trackSearch svc d).2 s) ∧
    (∀ s : Service, d ∉ s.state.pendingSearches → (SessionService.trackSearch svc d).2 s = s) ∧
    (∀ s : Service, ∀ x : Nat, x ≠ d →
      (x ∈ ((SessionService.trackSearch svc d).2 s).state.pendingSearches ↔
        x ∈ s.state.pendingSearches)) := by
  refine ⟨?_, ?_, ?_, ?_, ?_⟩
  · simp only [SessionService.trackSearch, trackSearchT, h, if_true]
    by_cases hmem : d ∈ svc.state.pendingSearches
    · simp [hmem]
    · simp [hmem]
  · intro s
    simp [SessionService.trackSearch, unTrackSearchT, List.mem_filter]
  · intro s
    simp [SessionService.trackSearch, unTrackSearchT, filter_ne_idem]
  · intro s hs
    obtain ⟨⟨sid, ist, isr, pend⟩, ip, ca⟩ := s
    dsimp only at hs ⊢
    simp only [SessionService.trackSearch, unTrackSearchT]
    simp
    exact fun a ha he => hs (he ▸ ha)
  · intro s x hx
    simp [SessionService.trackSearch, unTrackSearchT, List.mem_filter, hx]

/-- C8 witness: concrete instance of the track/untrack symmetry at
descriptor 5 on an active session. -/
theorem trackSearch_untrack_symmetry_witness :
    svcS1unstored.state.sessionId.isSome = true ∧
    5 ∈ (SessionService.trackSearch svcS1unstored 5).1.state.pendingSearches ∧
    5 ∉ ((SessionService.trackSearch svcS1unstored 5).2
        (SessionService.trackSearch svcS1unstored 5).1).state.pendingSearches :=
  ⟨rfl, (trackSearch_untrack_symmetry svcS1unstored 5 rfl).1,
   (trackSearch_untrack_symmetry svcS1unstored 5 rfl).2.1 _⟩

/-- C9: with an active session and duplicate-free pending searches, after the
synchronous phase of `cancel()` the session id is absent, the aborted
descriptors are exactly the searches pending at the moment of the call, and
the abort capability of each pending descriptor was invoked exactly once. -/
theorem cancel_aborts_each_pending_once (svc : Service)
    (_hactive : svc.state.sessionId.isSome = true)
    (h2 : svc.state.pendingSearches.Nodup) :
    (SessionService.cancel svc).1.state.sessionId = none ∧
    (SessionService.cancel svc).2.1 = svc.state.pendingSearches ∧
    ∀ d ∈ svc.state.pendingSearches, (SessionService.cancel svc).2.1.count d = 1 := by
  refine ⟨rfl, rfl, ?_⟩
  intro d hd
  exact List.count_eq_one_of_mem h2 hd

/-- C9 witness: cancelling a session with pending searches 7 and 8 clears
the id and aborts descriptor 7 exactly once. -/
theorem cancel_aborts_each_pending_once_witness :
    svcS1pending.state.sessionId.isSome = true ∧
    svcS1pending.state.pendingSearches.Nodup ∧
    (SessionService.cancel svcS1pending).1.state.sessionId = none ∧
    (SessionService.cancel svcS1pending).2.1.count 7 = 1 :=
  ⟨rfl, by decide,
   (cancel_aborts_each_pending_once svcS1pending rfl (by decide)).1,
   (cancel_aborts_each_pending_once svcS1pending rfl (by decide)).2.2 7 (by decide)⟩

end SearchSession

namespace SearchSession

/-! ## Further concrete instances and helper lemmas for save() -/

/-- No active session, app and provider irrelevant. -/
def svcNoSession : Service :=
  { state := emptySessionState, infoProvider := none, curApp := some "app1" }

/-- Active session S1 and a provider, but no current app id. -/
def svcNoApp : Service :=
  { state := { sessionId := some "S1", isStored := false, isRestore := false,
               pendingSearches := [] },
    infoProvider := some provP, curApp := none }

/-- A truthy optional string is `some` of a non-empty string. -/
theorem optTruthy_of_some_ne (s : String) (h : s ≠ "") :
    optTruthy (some s) = true := by
  simp [optTruthy, h]

/-- The shape of `save()` when all three preconditions pass: provider calls
`getName` and `getUrlGeneratorData` are made, one create call is issued
whose `appId` is the `curApp` read after the first suspension, and the
store transition is applied exactly when the session id after the second
suspension still equals the captured one. -/
theorem save_ok_shape (svc : Service) (i1 i2 : Service → Service) (p : InfoProvider)
    (ht1 : optTruthy svc.state.sessionId = true)
    (ht2 : optTruthy svc.curApp = true)
    (hp : svc.infoProvider = some p) :
    SessionService.save svc i1 i2 =
      (.ok (if (i2 (i1 svc)).state.sessionId = svc.state.sessionId
            then { i2 (i1 svc) with state := storeT (i2 (i1 svc)).state }
            else i2 (i1 svc)),
       [ProviderCall.getName, ProviderCall.getUrlGeneratorData],
       [{ name := p.name, appId := (i1 svc).curApp, restoreState := p.restoreState,
          initialState := p.initialState, urlGeneratorId := p.urlGeneratorId,
          sessionId := svc.state.sessionId }]) := by
  simp only [SessionService.save, ht1, ht2, hp, if_true]

/-- C3: `save()` with no active session, or with no current app id, or with
no registered info provider fails synchronously with the corresponding
descriptive error — three pairwise distinct messages — and performs no
provider call and no persistence call. -/
theorem save_three_precondition_failures
    (s1 s2 s3 : Service) (i1 i2 : Service → Service)
    (h1 : optTruthy s1.state.sessionId = false)
    (h2 : optTruthy s2.state.sessionId = true ∧ optTruthy s2.curApp = false)
    (h3 : optTruthy s3.state.sessionId = true ∧ optTruthy s3.curApp = true ∧
      s3.infoProvider = none) :
    SessionService.save s1 i1 i2 = (.error "No current session", [], []) ∧
    SessionService.save s2 i1 i2 = (.error "No current app id", [], []) ∧
    SessionService.save s3 i1 i2 = (.error "No info provider for current session", [], []) ∧
    ("No current session" ≠ "No current app id" ∧
     "No current session" ≠ "No info provider for current session" ∧
     "No current app id" ≠ "No info provider for current session") := by
  refine ⟨?_, ?_, ?_, by decide, by decide, by decide⟩
  · simp [SessionService.save, h1]
  · simp [SessionService.save, h2.1, h2.2]
  · simp [SessionService.save, h3.1, h3.2.1, h3.2.2]

/-- C3 witness: the three failures at concrete services, with identity
interleavings. -/
theorem save_three_precondition_failures_witness :
    optTruthy svcNoSession.state.sessionId = false ∧
    SessionService.save svcNoSession id id = (.error "No current session", [], []) ∧
    SessionService.save svcNoApp id id = (.error "No current app id", [], []) ∧
    SessionService.save svcS1unstored id id =
      (.error "No info provider for current session", [], []) :=
  ⟨rfl,
   (save_three_precondition_failures svcNoSession svcNoApp svcS1unstored id id
      rfl ⟨rfl, rfl⟩ ⟨rfl, rfl, rfl⟩).1,
   (save_three_precondition_failures svcNoSession svcNoApp svcS1unstored id id
      rfl ⟨rfl, rfl⟩ ⟨rfl, rfl, rfl⟩).2.1,
   (save_three_precondition_failures svcNoSession svcNoApp svcS1unstored id id
      rfl ⟨rfl, rfl⟩ ⟨rfl, rfl, rfl⟩).2.2.1⟩

/-- C6: with an active session `sid`, a current app id and a registered info
provider, `save()` (with no interleaved transitions) requests from the provider the
name and restoration-state pair, calls create with the name, current app id,
state blobs, restoration-target id and the session id, and afterwards the
state is marked stored. -/
theorem save_success (svc : Service) (sid app : String) (p : InfoProvider)
    (h1 : svc.state.sessionId = some sid) (h2 : sid ≠ "")
    (h3 : svc.curApp = some app) (h4 : app ≠ "")
    (h5 : svc.infoProvider = some p) :
    SessionService.save svc id id =
      (.ok { svc with state := storeT svc.state },
       [ProviderCall.getName, ProviderCall.getUrlGeneratorData],
       [{ name := p.name, appId := some app, restoreState := p.restoreState,
          initialState := p.initialState, urlGeneratorId := p.urlGeneratorId,
          sessionId := some sid }]) ∧
    ({ svc with state := storeT svc.state } : Service).state.isStored = true := by
  have ht1 : optTruthy svc.state.sessionId = true := by
    rw [h1]; exact optTruthy_of_some_ne sid h2
  have ht2 : optTruthy svc.curApp = true := by
    rw [h3]; exact optTruthy_of_some_ne app h4
  constructor
  · rw [save_ok_shape svc id id p ht1 ht2 h5]
    simp [h1, h3]
  · simp [storeT, h1]

/-- C6 witness: starting from session S1 on app1 with provider `provP`
(name N, blobs 1 and 2), `save()` issues the expected create call and marks
the state stored. -/
theorem save_success_witness :
    svcS1withProvider.state.sessionId = some "S1" ∧
    SessionService.save svcS1withProvider id id =
      (.ok { svcS1withProvider with state := storeT svcS1withProvider.state },
       [ProviderCall.getName, ProviderCall.getUrlGeneratorData],
       [{ name := "N", appId := some "app1", restoreState := 2,
          initialState := 1, urlGeneratorId := "G",
          sessionId := some "S1" }]) ∧
    ({ svcS1withProvider with state := storeT svcS1withProvider.state } : Service).state.isStored
      = true :=
  ⟨rfl,
   (save_success svcS1withProvider "S1" "app1" provP rfl (by decide) rfl (by decide) rfl).1,
   (save_success svcS1withProvider "S1" "app1" provP rfl (by decide) rfl (by decide) rfl).2⟩

end SearchSession

namespace SearchSession

/-- C2: when `save()` reaches the create call, the store transition is
applied after create completes exactly when the then-current session id
still equals the captured one; when the session was cleared or replaced
during the suspensions, the stale result is discarded — the final state is
exactly the interleaved state, and if that state is unstored (as any
cleared or freshly started/restored state is) it stays unstored. -/
theorem save_stale_write_guard (svc : Service) (sid : String) (p : InfoProvider)
    (i1 i2 : Service → Service)
    (h1 : svc.state.sessionId = some sid) (h2 : sid ≠ "")
    (h3 : optTruthy svc.curApp = true) (h5 : svc.infoProvider = some p) :
    ((i2 (i1 svc)).state.sessionId = some sid →
      (SessionService.save svc i1 i2).1 =
        .ok { i2 (i1 svc) with state := storeT (i2 (i1 svc)).state } ∧
      (storeT (i2 (i1 svc)).state).isStored = true) ∧
    ((i2 (i1 svc)).state.sessionId ≠ some sid →
      (SessionService.save svc i1 i2).1 = .ok (i2 (i1 svc)) ∧
      ((i2 (i1 svc)).state.isStored = false →
        ∀ r : Service, (SessionService.save svc i1 i2).1 = .ok r →
          r.state.isStored = false)) := by
  have ht1 : optTruthy svc.state.sessionId = true := by
    rw [h1]; exact optTruthy_of_some_ne sid h2
  have hshape := save_ok_shape svc i1 i2 p ht1 h3 h5
  constructor
  · intro hg
    constructor
    · rw [hshape]
      simp [h1, hg]
    · simp [storeT, hg]
  · intro hg
    have hok : (SessionService.save svc i1 i2).1 = .ok (i2 (i1 svc)) := by
      rw [hshape]
      simp [h1, hg]
    refine ⟨hok, ?_⟩
    intro hunstored r hr
    rw [hok] at hr
    cases hr
    exact hunstored

/-- C2 witness: a save of session S1 during which the session is cleared —
the create call completes, the stale result is discarded and the final
state is the cleared, unstored one. -/
theorem save_stale_write_guard_witness :
    (SessionService.clear (id svcS1withProvider)).state.sessionId ≠ some "S1" ∧
    (SessionService.save svcS1withProvider id SessionService.clear).1 =
      .ok (SessionService.clear (id svcS1withProvider)) ∧
    (SessionService.clear (id svcS1withProvider)).state.isStored = false :=
  ⟨by decide,
   ((save_stale_write_guard svcS1withProvider "S1" provP id SessionService.clear
      rfl (by decide) rfl rfl).2 (by decide)).1,
   rfl⟩

/-- C10: the stale-write guard compares session ids only — for ANY
transitions interleaved during the awaits whose net effect leaves the
then-current session id equal to the captured one (for instance a clear
followed by a restore of the same id), the completed save marks the new
state stored, regardless of the app id or provider of the interleaved state
(no re-validation of either happens after the awaits). -/
theorem save_guard_compares_ids_only (svc : Service) (sid : String) (p : InfoProvider)
    (i2 : Service → Service)
    (h1 : svc.state.sessionId = some sid) (h2 : sid ≠ "")
    (h3 : optTruthy svc.curApp = true) (h5 : svc.infoProvider = some p)
    (hg : (i2 svc).state.sessionId = some sid) :
    (SessionService.save svc id i2).1 =
      .ok { i2 svc with state := storeT (i2 svc).state } ∧
    (storeT (i2 svc).state).isStored = true ∧
    (SessionService.save svc id i2).2.2.length = 1 := by
  have ht1 : optTruthy svc.state.sessionId = true := by
    rw [h1]; exact optTruthy_of_some_ne sid h2
  have hshape := save_ok_shape svc id i2 p ht1 h3 h5
  refine ⟨?_, ?_, ?_⟩
  · rw [hshape]
    simp [h1, hg]
  · simp [storeT, hg]
  · rw [hshape]
    rfl

/-- C10 witness: during the save of session S1 the session is cleared (which
also drops the provider and leaves no app re-check possible) and then
re-established via restore with the SAME id S1 — the completed save still
marks the restored session stored. -/
theorem save_guard_compares_ids_only_witness :
    ((fun s => SessionService.restore (SessionService.clear s) "S1")
        svcS1withProvider).state.sessionId = some "S1" ∧
    (SessionService.restore (SessionService.clear svcS1withProvider) "S1").infoProvider
      = none ∧
    (SessionService.save svcS1withProvider id
        (fun s => SessionService.restore (SessionService.clear s) "S1")).1 =
      .ok { SessionService.restore (SessionService.clear svcS1withProvider) "S1" with
            state := storeT (SessionService.restore
              (SessionService.clear svcS1withProvider) "S1").state } ∧
    (storeT (SessionService.restore
        (SessionService.clear svcS1withProvider) "S1").state).isStored = true :=
  ⟨rfl, rfl,
   (save_guard_compares_ids_only svcS1withProvider "S1" provP
      (fun s => SessionService.restore (SessionService.clear s) "S1")
      rfl (by decide) rfl rfl rfl).1,
   (save_guard_compares_ids_only svcS1withProvider "S1" provP
      (fun s => SessionService.restore (SessionService.clear s) "S1")
      rfl (by decide) rfl rfl rfl).2.1⟩

end SearchSession

namespace SearchSession

/-- C5 counterexample: in a development build, an app-change event with an
open session leaves the session UNCLEARED — only a deferred fatal-error
report is scheduled; the claimed (delayed) recovery by clearing never
happens. -/
theorem handleAppChange_dev_no_clear_cex :
    (SessionService.handleAppChange true svcS1withProvider (some "app2")).1.state.sessionId
      = some "S1" ∧
    (SessionService.handleAppChange true svcS1withProvider (some "app2")).1.infoProvider
      = some provP ∧
    (SessionService.handleAppChange true svcS1withProvider (some "app2")).2 =
      [SessionService.WatcherAction.deferredFatalError
        "Application app1 had an open session while navigating"] :=
  ⟨rfl, rfl, rfl⟩

/-- C5 (amended): an app-change event with a session open is reported as a
protocol violation; a production build recovers by clearing immediately
(console warning plus clear), while a development build only schedules a
delayed fatal-error report and does NOT clear the session; the tracked
current app id is updated on every event regardless. -/
theorem handleAppChange_behavior (dev : Bool) (svc : Service) (appName : Option String) :
    ((SessionService.handleAppChange dev svc appName).1.curApp = appName) ∧
    (optTruthy svc.state.sessionId = true → dev = false →
      (SessionService.handleAppChange dev svc appName).1 =
        { SessionService.clear svc with curApp := appName } ∧
      ∃ m, (SessionService.handleAppChange dev svc appName).2 =
        [SessionService.WatcherAction.consoleWarn m]) ∧
    (optTruthy svc.state.sessionId = true → dev = true →
      (SessionService.handleAppChange dev svc appName).1 =
        { svc with curApp := appName } ∧
      (SessionService.handleAppChange dev svc appName).1.state.sessionId =
        svc.state.sessionId ∧
      ∃ m, (SessionService.handleAppChange dev svc appName).2 =
        [SessionService.WatcherAction.deferredFatalError m]) ∧
    (optTruthy svc.state.sessionId = false →
      (SessionService.handleAppChange dev svc appName).1 = { svc with curApp := appName } ∧
      (SessionService.handleAppChange dev svc appName).2 = []) := by
  refine ⟨?_, ?_, ?_, ?_⟩
  · simp only [SessionService.handleAppChange]
    split
    · split
      · rfl
      · rfl
    · rfl
  · intro h hdev
    subst hdev
    simp only [SessionService.handleAppChange, h, if_true]
    exact ⟨rfl, _, rfl⟩
  · intro h hdev
    subst hdev
    refine ⟨?_, ?_, ?_⟩
    · simp [SessionService.handleAppChange, h]
    · simp [SessionService.handleAppChange, h]
    · refine ⟨"Application " ++ svc.curApp.getD "undefined" ++
        " had an open session while navigating", ?_⟩
      simp [SessionService.handleAppChange, h]
  · intro h
    refine ⟨?_, ?_⟩
    · simp [SessionService.handleAppChange, h]
    · simp [SessionService.handleAppChange, h]

/-- C5 witness: concrete app changes — production build clears, development
build keeps the session, an idle service only records the new app id. -/
theorem handleAppChange_behavior_witness :
    (SessionService.handleAppChange false svcS1withProvider (some "app2")).1 =
      { SessionService.clear svcS1withProvider with curApp := some "app2" } ∧
    (SessionService.handleAppChange true svcS1withProvider (some "app2")).1 =
      { svcS1withProvider with curApp := some "app2" } ∧
    (SessionService.handleAppChange true svcNoSession (some "app2")).2 = [] :=
  ⟨((handleAppChange_behavior false svcS1withProvider (some "app2")).2.1 rfl rfl).1,
   ((handleAppChange_behavior true svcS1withProvider (some "app2")).2.2.1 rfl rfl).1,
   ((handleAppChange_behavior true svcNoSession (some "app2")).2.2.2 rfl).2⟩

/-! ## Lemmas about the deduplicated session-id stream -/

/-- The deduplicated stream never holds two consecutive equal values. -/
theorem dedupLoop_chain : ∀ (rest : List (Option String)) (prev : Option String),
    List.Chain' (fun a b => a ≠ b) (prev :: dedupLoop prev rest)
  | [], _prev => by simp [dedupLoop]
  | a :: rest, prev => by
    by_cases h : a = prev
    · simp only [dedupLoop, if_pos h]
      exact dedupLoop_chain rest prev
    · simp only [dedupLoop, if_neg h]
      rw [List.chain'_cons]
      exact ⟨fun he => h he.symm, dedupLoop_chain rest a⟩

/-- Appending a value equal to the last effective one adds no emission. -/
theorem dedupLoop_append_last : ∀ (l : List (Option String)) (prev : Option String),
    dedupLoop prev (l ++ [l.getLastD prev]) = dedupLoop prev l
  | [], prev => by simp [dedupLoop]
  | a :: l, prev => by
    simp only [List.cons_append, dedupLoop, List.getLastD_cons, List.append_eq]
    by_cases h : a = prev
    · subst h
      simp only [if_pos rfl]
      exact dedupLoop_append_last l a
    · simp only [if_neg h]
      rw [dedupLoop_append_last l a]

/-- `getLastD` commutes with `map`. -/
theorem getLastD_map (f : SessionState → Option String) :
    ∀ (l : List SessionState) (d : SessionState),
      (l.map f).getLastD (f d) = f (l.getLastD d)
  | [], _d => rfl
  | a :: l, d => by
    simp only [List.map_cons, List.getLastD_cons]
    exact getLastD_map f l a

/-- One more transition appends one more published state, computed from the
last published (or initial) state. -/
theorem statesAfter_append_single :
    ∀ (init : SessionState) (ts : List Transition) (t : Transition),
      statesAfter init (ts ++ [t]) =
        statesAfter init ts ++ [applyT t ((statesAfter init ts).getLastD init)]
  | _init, [], _t => rfl
  | init, t0 :: ts, t => by
    simp only [List.cons_append, statesAfter, List.getLastD_cons, List.append_eq]
    rw [statesAfter_append_single (applyT t0 init) ts t]

/-- `trackSearch` never changes the session id. -/
theorem trackSearchT_sessionId (d : Nat) (s : SessionState) :
    (trackSearchT d s).sessionId = s.sessionId := by
  simp only [trackSearchT]
  split
  · split
    · rfl
    · rfl
  · rfl

/-- C7 counterexample: with the transitions restore A, clear, restore A the
derived session-id observable emits the id A twice — the claim that it
emits exactly once per distinct id fails (only CONSECUTIVE duplicates are
suppressed). -/
theorem sessionEmissions_repeats_cex :
    sessionEmissions emptySessionState
        [Transition.restore "A", Transition.clear, Transition.restore "A"] =
      [none, some "A", none, some "A"] ∧
    (sessionEmissions emptySessionState
        [Transition.restore "A", Transition.clear, Transition.restore "A"]).count (some "A")
      = 2 :=
  ⟨rfl, rfl⟩

/-- C7 (amended): the derived session-id observable never emits the same id
twice consecutively — intervening transitions such as `trackSearch` that do
not change the id produce no emission — but an id may be emitted again
after the stream has moved to a different id in between. -/
theorem sessionEmissions_no_consecutive_dup (init : SessionState)
    (ts : List Transition) (d : Nat) :
    List.Chain' (fun a b => a ≠ b) (sessionEmissions init ts) ∧
    sessionEmissions init (ts ++ [Transition.trackSearch d]) = sessionEmissions init ts := by
  constructor
  · exact dedupLoop_chain _ _
  · have hid : (applyT (Transition.trackSearch d)
        ((statesAfter init ts).getLastD init)).sessionId
        = ((statesAfter init ts).map SessionState.sessionId).getLastD init.sessionId := by
      rw [getLastD_map SessionState.sessionId]
      exact trackSearchT_sessionId d _
    simp only [sessionEmissions]
    rw [statesAfter_append_single, List.map_append, List.map_cons, List.map_nil, hid,
      dedupLoop_append_last]

end SearchSession
